import Mathlib

/-!
Verification of the Screen-Exposure Impact Predictor scoring logic.

The data model and the scoring pipeline below are a shallow embedding of
the `onSubmit` handler and the `isFormEmpty` computation in
`src/src/App.tsx`.  JavaScript numbers are modelled as rationals: every
constant appearing in the source (the neutral 5, the adjustment deltas
±1, ±1.5, ±2, ±3, the clamp bounds 0 and 10, the thresholds 2, 7, 12,
36, 3, 4 and the mean divisor 6) is exactly representable, and the
smallest gap between any reachable mean and a threshold is 1/12, far
above double-precision rounding error, so the rational semantics agrees
with the floating-point semantics of the source on every comparison.
-/

set_option autoImplicit false

namespace ScreenImpact

/-- `type ContentType` from the source. -/
inductive ContentType
  | educational
  | nonEducational
  | background
  | interactive
  deriving DecidableEq, Repr

/-- `type ParentalInvolvement` from the source. -/
inductive ParentalInvolvement
  | instructive
  | coViewing
  | unmediated
  deriving DecidableEq, Repr

/-- `type YesNo = 'yes' | 'no'` from the source. -/
inductive YesNo
  | yes
  | no
  deriving DecidableEq, Repr

/-- `interface FormValues` from the source. -/
structure FormValues where
  contentType : ContentType
  duration : ℚ
  frequency : ℚ
  age : ℚ
  parentalInvolvement : ParentalInvolvement
  simultaneousUse : YesNo
  backgroundFreq : ℚ
  maternalScreenTime : ℚ
  maternalMentalHealth : YesNo
  deriving DecidableEq, Repr

/-- `interface Scores` from the source. -/
structure Scores where
  vocabulary : ℚ
  mentalVerb : ℚ
  expressive : ℚ
  verbalInteraction : ℚ
  sentenceComp : ℚ
  socialLang : ℚ
  deriving DecidableEq, Repr

/-- The harm-level union type `'Low' | 'Medium' | 'High'`. -/
inductive HarmLevel
  | Low
  | Medium
  | High
  deriving DecidableEq, Repr

/-- The record passed to `setResults` in `onSubmit`. -/
structure ScoreResult where
  scores : Scores
  harmLevel : HarmLevel
  suggestions : String
  deriving DecidableEq, Repr

/-- Step 1 of `onSubmit`: all six sub-scores initialised to the neutral 5. -/
def initialScores : Scores :=
  { vocabulary := 5, mentalVerb := 5, expressive := 5,
    verbalInteraction := 5, sentenceComp := 5, socialLang := 5 }

/-- The `Object.keys(scores).forEach` pattern: add the same delta to every
sub-score. -/
def addAll (d : ℚ) (s : Scores) : Scores :=
  { vocabulary := s.vocabulary + d, mentalVerb := s.mentalVerb + d,
    expressive := s.expressive + d, verbalInteraction := s.verbalInteraction + d,
    sentenceComp := s.sentenceComp + d, socialLang := s.socialLang + d }

/-- The `switch (data.contentType)` block of `onSubmit`. -/
def applyContentType (c : ContentType) (s : Scores) : Scores :=
  match c with
  | .educational =>
      { s with vocabulary := s.vocabulary + 2, mentalVerb := s.mentalVerb + 2,
               sentenceComp := s.sentenceComp + 1 }
  | .nonEducational =>
      { s with vocabulary := s.vocabulary - 2, expressive := s.expressive - 1,
               socialLang := s.socialLang - 1 }
  | .background =>
      { s with verbalInteraction := s.verbalInteraction - 3,
               expressive := s.expressive - 2, socialLang := s.socialLang - 2 }
  | .interactive =>
      { s with expressive := s.expressive + 1, socialLang := s.socialLang + 2,
               mentalVerb := s.mentalVerb + 1 }

/-- The `switch (data.parentalInvolvement)` block of `onSubmit`. -/
def applyParentalInvolvement (p : ParentalInvolvement) (s : Scores) : Scores :=
  match p with
  | .instructive => addAll 2 s
  | .coViewing =>
      { s with verbalInteraction := s.verbalInteraction + 2,
               expressive := s.expressive + 1 }
  | .unmediated => addAll (-2) s

/-- The age-threshold block of `onSubmit`. -/
def applyAge (age : ℚ) (s : Scores) : Scores :=
  if age < 12 then addAll (-2) s
  else if age ≤ 36 then { s with vocabulary := s.vocabulary - 1 }
  else s

/-- The excessive-use block of `onSubmit`. -/
def applyExcessiveUse (duration frequency : ℚ) (s : Scores) : Scores :=
  if duration > 2 ∨ frequency > 7 then addAll (-(3/2)) s else s

/-- The four contextual-factor `if` statements of `onSubmit`, applied in
source order. -/
def applyContextual (simultaneousUse : YesNo) (backgroundFreq maternalScreenTime : ℚ)
    (maternalMentalHealth : YesNo) (s : Scores) : Scores :=
  let s1 := if simultaneousUse = .yes then
              { s with verbalInteraction := s.verbalInteraction - 1 } else s
  let s2 := if backgroundFreq > 3 then
              { s1 with expressive := s1.expressive - 2,
                        verbalInteraction := s1.verbalInteraction - 2 } else s1
  let s3 := if maternalScreenTime > 4 then
              { s2 with socialLang := s2.socialLang - 1 } else s2
  if maternalMentalHealth = .yes then
    { s3 with mentalVerb := s3.mentalVerb - 1 } else s3

/-- `Math.min` on (non-NaN) numbers: the smaller argument. -/
def jsMin (a b : ℚ) : ℚ := if a ≤ b then a else b

/-- `Math.max` on (non-NaN) numbers: the larger argument. -/
def jsMax (a b : ℚ) : ℚ := if a ≤ b then b else a

/-- `Math.max(0, Math.min(10, x))`. -/
def clamp (x : ℚ) : ℚ := jsMax 0 (jsMin 10 x)

/-- The clamping `forEach` of `onSubmit`, applied to every sub-score. -/
def clampScores (s : Scores) : Scores :=
  { vocabulary := clamp s.vocabulary, mentalVerb := clamp s.mentalVerb,
    expressive := clamp s.expressive, verbalInteraction := clamp s.verbalInteraction,
    sentenceComp := clamp s.sentenceComp, socialLang := clamp s.socialLang }

/-- The value of the `scores` accumulator just before the clamping loop:
steps 1-6 of `onSubmit` in source order. -/
def rawScores (data : FormValues) : Scores :=
  applyContextual data.simultaneousUse data.backgroundFreq data.maternalScreenTime
    data.maternalMentalHealth
    (applyExcessiveUse data.duration data.frequency
      (applyAge data.age
        (applyParentalInvolvement data.parentalInvolvement
          (applyContentType data.contentType initialScores))))

/-- The clamped `scores` record returned by `onSubmit`. -/
def finalScores (data : FormValues) : Scores := clampScores (rawScores data)

/-- `Object.values(scores).reduce((a, b) => a + b, 0)`, in declaration
order of the `Scores` fields. -/
def scoreSum (s : Scores) : ℚ :=
  0 + s.vocabulary + s.mentalVerb + s.expressive + s.verbalInteraction
    + s.sentenceComp + s.socialLang

/-- `const avg = ... / 6`. -/
def avgOf (s : Scores) : ℚ := scoreSum s / 6

/-- `const harmLevel = avg > 7 ? 'Low' : avg > 4 ? 'Medium' : 'High'`. -/
def harmLevelOf (avg : ℚ) : HarmLevel :=
  if avg > 7 then .Low else if avg > 4 then .Medium else .High

/-- The nested conditional computing `suggestions` from `harmLevel`. -/
def suggestionsFor (h : HarmLevel) : String :=
  if h = .High then
    "Reduce screen time, focus on mediated educational content, and increase direct interactions."
  else if h = .Medium then
    "Monitor usage; add more parental involvement for better outcomes."
  else
    "Current setup seems beneficial—continue with educational focus."

/-- The whole `onSubmit` scoring computation: the record passed to
`setResults`. -/
def score (data : FormValues) : ScoreResult :=
  let scores := finalScores data
  let avg := avgOf scores
  let harmLevel := harmLevelOf avg
  { scores := scores, harmLevel := harmLevel, suggestions := suggestionsFor harmLevel }

/-! ### The form-emptiness check

`watch()` exposes each of the nine form fields as a raw DOM value: absent
before the field is touched/registered, or a string.  JavaScript
truthiness on such a value is: `undefined` and the empty string are
falsy, every other string is truthy. -/

/-- The watched state of the nine form fields. -/
structure FormState where
  contentType : Option String
  duration : Option String
  frequency : Option String
  age : Option String
  parentalInvolvement : Option String
  simultaneousUse : Option String
  backgroundFreq : Option String
  maternalScreenTime : Option String
  maternalMentalHealth : Option String
  deriving DecidableEq, Repr

/-- JavaScript falsiness of a watched field value: `!v` is true exactly
when the value is `undefined` or the empty string. -/
def jsFalsy (v : Option String) : Bool :=
  match v with
  | none => true
  | some s => s = ""

/-- A field "has a value" when it is not falsy. -/
def hasValue (v : Option String) : Prop := jsFalsy v = false

/-- `isFormEmpty`: conjunction of `!field` over the nine watched fields. -/
def isFormEmpty (st : FormState) : Bool :=
  jsFalsy st.contentType && jsFalsy st.duration && jsFalsy st.frequency &&
  jsFalsy st.age && jsFalsy st.parentalInvolvement && jsFalsy st.simultaneousUse &&
  jsFalsy st.backgroundFreq && jsFalsy st.maternalScreenTime &&
  jsFalsy st.maternalMentalHealth

/-- The submit button's `disabled={isFormEmpty}` attribute. -/
def submitDisabled (st : FormState) : Bool := isFormEmpty st

/-! ### Concrete scenarios from the spec -/

/-- Scenario A of §8 of the spec. -/
def scenarioA : FormValues :=
  { contentType := .educational, duration := 1, frequency := 3, age := 24,
    parentalInvolvement := .coViewing, simultaneousUse := .no,
    backgroundFreq := 0, maternalScreenTime := 1, maternalMentalHealth := .no }

/-- Scenario B of §8 of the spec. -/
def scenarioB : FormValues :=
  { contentType := .background, duration := 4, frequency := 10, age := 8,
    parentalInvolvement := .unmediated, simultaneousUse := .yes,
    backgroundFreq := 5, maternalScreenTime := 6, maternalMentalHealth := .yes }

/-! ### Helper lemmas about the clamp -/

lemma clamp_nonneg (x : ℚ) : 0 ≤ clamp x := by
  unfold clamp jsMax jsMin
  split_ifs <;> linarith

lemma clamp_le_ten (x : ℚ) : clamp x ≤ 10 := by
  unfold clamp jsMax jsMin
  split_ifs <;> linarith

lemma clamp_mono {x y : ℚ} (h : x ≤ y) : clamp x ≤ clamp y := by
  unfold clamp jsMax jsMin
  split_ifs <;> linarith

lemma clamp_le_of_le {x c : ℚ} (hc : 0 ≤ c) (h : x ≤ c) : clamp x ≤ c := by
  unfold clamp jsMax jsMin
  split_ifs <;> linarith

/-! ### Per-field projection lemmas for the pipeline steps -/

lemma applyParentalInvolvement_vocabulary (p : ParentalInvolvement) (s : Scores) :
    (applyParentalInvolvement p s).vocabulary =
      s.vocabulary +
        (match p with | .instructive => 2 | .coViewing => 0 | .unmediated => -2) := by
  cases p <;> simp [applyParentalInvolvement, addAll]

lemma applyParentalInvolvement_mentalVerb (p : ParentalInvolvement) (s : Scores) :
    (applyParentalInvolvement p s).mentalVerb =
      s.mentalVerb +
        (match p with | .instructive => 2 | .coViewing => 0 | .unmediated => -2) := by
  cases p <;> simp [applyParentalInvolvement, addAll]

lemma applyParentalInvolvement_sentenceComp (p : ParentalInvolvement) (s : Scores) :
    (applyParentalInvolvement p s).sentenceComp =
      s.sentenceComp +
        (match p with | .instructive => 2 | .coViewing => 0 | .unmediated => -2) := by
  cases p <;> simp [applyParentalInvolvement, addAll]

lemma applyAge_vocabulary (age : ℚ) (s : Scores) :
    (applyAge age s).vocabulary =
      if age < 12 then s.vocabulary - 2
      else if age ≤ 36 then s.vocabulary - 1 else s.vocabulary := by
  unfold applyAge addAll
  split_ifs <;> ring

lemma applyAge_mentalVerb (age : ℚ) (s : Scores) :
    (applyAge age s).mentalVerb =
      if age < 12 then s.mentalVerb - 2 else s.mentalVerb := by
  unfold applyAge addAll
  split_ifs <;> ring

lemma applyAge_sentenceComp (age : ℚ) (s : Scores) :
    (applyAge age s).sentenceComp =
      if age < 12 then s.sentenceComp - 2 else s.sentenceComp := by
  unfold applyAge addAll
  split_ifs <;> ring

lemma applyExcessiveUse_vocabulary (d f : ℚ) (s : Scores) :
    (applyExcessiveUse d f s).vocabulary =
      if d > 2 ∨ f > 7 then s.vocabulary - 3/2 else s.vocabulary := by
  unfold applyExcessiveUse addAll
  split_ifs <;> ring

lemma applyExcessiveUse_mentalVerb (d f : ℚ) (s : Scores) :
    (applyExcessiveUse d f s).mentalVerb =
      if d > 2 ∨ f > 7 then s.mentalVerb - 3/2 else s.mentalVerb := by
  unfold applyExcessiveUse addAll
  split_ifs <;> ring

lemma applyExcessiveUse_sentenceComp (d f : ℚ) (s : Scores) :
    (applyExcessiveUse d f s).sentenceComp =
      if d > 2 ∨ f > 7 then s.sentenceComp - 3/2 else s.sentenceComp := by
  unfold applyExcessiveUse addAll
  split_ifs <;> ring

lemma applyContextual_vocabulary (su : YesNo) (bf mst : ℚ) (mmh : YesNo) (s : Scores) :
    (applyContextual su bf mst mmh s).vocabulary = s.vocabulary := by
  simp only [applyContextual]
  split_ifs <;> rfl

lemma applyContextual_mentalVerb (su : YesNo) (bf mst : ℚ) (mmh : YesNo) (s : Scores) :
    (applyContextual su bf mst mmh s).mentalVerb =
      if mmh = .yes then s.mentalVerb - 1 else s.mentalVerb := by
  simp only [applyContextual]
  split_ifs <;> rfl

lemma applyContextual_expressive (su : YesNo) (bf mst : ℚ) (mmh : YesNo) (s : Scores) :
    (applyContextual su bf mst mmh s).expressive =
      if bf > 3 then s.expressive - 2 else s.expressive := by
  simp only [applyContextual]
  split_ifs <;> rfl

lemma applyContextual_sentenceComp (su : YesNo) (bf mst : ℚ) (mmh : YesNo) (s : Scores) :
    (applyContextual su bf mst mmh s).sentenceComp = s.sentenceComp := by
  simp only [applyContextual]
  split_ifs <;> rfl

lemma applyContextual_socialLang (su : YesNo) (bf mst : ℚ) (mmh : YesNo) (s : Scores) :
    (applyContextual su bf mst mmh s).socialLang =
      if mst > 4 then s.socialLang - 1 else s.socialLang := by
  simp only [applyContextual]
  split_ifs <;> rfl

/-! ### Claim theorems -/

/-- C1: for every well-typed `FormValues` input, each of the six sub-scores
(vocabulary, mentalVerb, expressive, verbalInteraction, sentenceComp,
socialLang) in the `Scores` record returned by the scoring function lies in
the closed interval [0, 10]. -/
theorem scores_in_unit_range (data : FormValues) :
    (0 ≤ (score data).scores.vocabulary ∧ (score data).scores.vocabulary ≤ 10) ∧
    (0 ≤ (score data).scores.mentalVerb ∧ (score data).scores.mentalVerb ≤ 10) ∧
    (0 ≤ (score data).scores.expressive ∧ (score data).scores.expressive ≤ 10) ∧
    (0 ≤ (score data).scores.verbalInteraction ∧ (score data).scores.verbalInteraction ≤ 10) ∧
    (0 ≤ (score data).scores.sentenceComp ∧ (score data).scores.sentenceComp ≤ 10) ∧
    (0 ≤ (score data).scores.socialLang ∧ (score data).scores.socialLang ≤ 10) := by
  simp only [score, finalScores, clampScores]
  exact ⟨⟨clamp_nonneg _, clamp_le_ten _⟩, ⟨clamp_nonneg _, clamp_le_ten _⟩,
    ⟨clamp_nonneg _, clamp_le_ten _⟩, ⟨clamp_nonneg _, clamp_le_ten _⟩,
    ⟨clamp_nonneg _, clamp_le_ten _⟩, ⟨clamp_nonneg _, clamp_le_ten _⟩⟩

/-- C2: with `avg` the arithmetic mean of the six clamped sub-scores, the
scoring function returns `Low` iff `avg > 7`, `Medium` iff `4 < avg ≤ 7`,
and `High` iff `avg ≤ 4` (so `avg = 7` yields `Medium` and `avg = 4`
yields `High`). -/
theorem harmLevel_iff_avg (data : FormValues) :
    ((score data).harmLevel = HarmLevel.Low ↔ 7 < avgOf (finalScores data)) ∧
    ((score data).harmLevel = HarmLevel.Medium ↔
      4 < avgOf (finalScores data) ∧ avgOf (finalScores data) ≤ 7) ∧
    ((score data).harmLevel = HarmLevel.High ↔ avgOf (finalScores data) ≤ 4) := by
  have hrep : (score data).harmLevel = harmLevelOf (avgOf (finalScores data)) := rfl
  rw [hrep]
  unfold harmLevelOf
  split_ifs with h1 h2
  · exact ⟨⟨fun _ => h1, fun _ => rfl⟩,
      ⟨fun h => h.elim, fun h => absurd h.2 (not_le.mpr h1)⟩,
      ⟨fun h => h.elim, fun h => absurd h (not_le.mpr (by linarith))⟩⟩
  · exact ⟨⟨fun h => h.elim, fun hlt => absurd hlt h1⟩,
      ⟨fun _ => ⟨h2, not_lt.mp h1⟩, fun _ => rfl⟩,
      ⟨fun h => h.elim, fun hle => absurd hle (not_le.mpr h2)⟩⟩
  · exact ⟨⟨fun h => h.elim, fun hlt => absurd hlt h1⟩,
      ⟨fun h => h.elim, fun hm => absurd hm.1 h2⟩,
      ⟨fun _ => not_lt.mp h2, fun _ => rfl⟩⟩

/-- C3: on Scenario A (educational, duration 1, frequency 3, age 24,
co-viewing, no simultaneous use, backgroundFreq 0, maternalScreenTime 1, no
maternal mental-health symptoms) the scoring function returns vocabulary 6,
mentalVerb 7, expressive 6, verbalInteraction 7, sentenceComp 6,
socialLang 5 and harm level Medium. -/
theorem scenarioA_result :
    (score scenarioA).scores.vocabulary = 6 ∧
    (score scenarioA).scores.mentalVerb = 7 ∧
    (score scenarioA).scores.expressive = 6 ∧
    (score scenarioA).scores.verbalInteraction = 7 ∧
    (score scenarioA).scores.sentenceComp = 6 ∧
    (score scenarioA).scores.socialLang = 5 ∧
    (score scenarioA).harmLevel = HarmLevel.Medium := by
  simp [score, finalScores, rawScores, applyContentType, applyParentalInvolvement,
    applyAge, applyExcessiveUse, applyContextual, addAll, initialScores, clampScores,
    clamp, jsMin, jsMax, avgOf, scoreSum, harmLevelOf, scenarioA]
  all_goals norm_num

/-- C4: on Scenario B (background, duration 4, frequency 10, age 8,
unmediated, simultaneous use, backgroundFreq 5, maternalScreenTime 6,
maternal mental-health symptoms) all six returned sub-scores equal 0 and the
harm level is High. -/
theorem scenarioB_result :
    (score scenarioB).scores.vocabulary = 0 ∧
    (score scenarioB).scores.mentalVerb = 0 ∧
    (score scenarioB).scores.expressive = 0 ∧
    (score scenarioB).scores.verbalInteraction = 0 ∧
    (score scenarioB).scores.sentenceComp = 0 ∧
    (score scenarioB).scores.socialLang = 0 ∧
    (score scenarioB).harmLevel = HarmLevel.High := by
  simp [score, finalScores, rawScores, applyContentType, applyParentalInvolvement,
    applyAge, applyExcessiveUse, applyContextual, addAll, initialScores, clampScores,
    clamp, jsMin, jsMax, avgOf, scoreSum, harmLevelOf, scenarioB]
  all_goals norm_num

/-- C6: the returned suggestions string is a function of the harm level
alone, given by the fixed three-entry lookup of the source. -/
theorem suggestions_lookup (data : FormValues) :
    (score data).suggestions = suggestionsFor ((score data).harmLevel) ∧
    suggestionsFor HarmLevel.High =
      "Reduce screen time, focus on mediated educational content, and increase direct interactions." ∧
    suggestionsFor HarmLevel.Medium =
      "Monitor usage; add more parental involvement for better outcomes." ∧
    suggestionsFor HarmLevel.Low =
      "Current setup seems beneficial—continue with educational focus." := by
  refine ⟨rfl, ?_, ?_, ?_⟩ <;> simp [suggestionsFor]

/-- C7: the scoring computation is deterministic: identical inputs produce
identical `ScoreResult` outputs. -/
theorem score_deterministic (a b : FormValues) (h : a = b) : score a = score b := by
  rw [h]

/-- Witness for C7 at Scenario A. -/
theorem score_deterministic_witness : score scenarioA = score scenarioA :=
  score_deterministic scenarioA scenarioA rfl

/-- C5: holding all other fields fixed, switching `contentType` from
`background` to `educational` never decreases the vocabulary, mentalVerb or
sentenceComp sub-score. -/
theorem educational_ge_background (d f a : ℚ) (p : ParentalInvolvement)
    (su : YesNo) (bf mst : ℚ) (mmh : YesNo) :
    (score ⟨.background, d, f, a, p, su, bf, mst, mmh⟩).scores.vocabulary ≤
      (score ⟨.educational, d, f, a, p, su, bf, mst, mmh⟩).scores.vocabulary ∧
    (score ⟨.background, d, f, a, p, su, bf, mst, mmh⟩).scores.mentalVerb ≤
      (score ⟨.educational, d, f, a, p, su, bf, mst, mmh⟩).scores.mentalVerb ∧
    (score ⟨.background, d, f, a, p, su, bf, mst, mmh⟩).scores.sentenceComp ≤
      (score ⟨.educational, d, f, a, p, su, bf, mst, mmh⟩).scores.sentenceComp := by
  refine ⟨clamp_mono ?_, clamp_mono ?_, clamp_mono ?_⟩ <;>
    simp only [rawScores, applyContextual_vocabulary, applyContextual_mentalVerb,
      applyContextual_sentenceComp, applyExcessiveUse_vocabulary,
      applyExcessiveUse_mentalVerb, applyExcessiveUse_sentenceComp,
      applyAge_vocabulary, applyAge_mentalVerb, applyAge_sentenceComp,
      applyParentalInvolvement_vocabulary, applyParentalInvolvement_mentalVerb,
      applyParentalInvolvement_sentenceComp, applyContentType, initialScores] <;>
    cases p <;> split_ifs <;> norm_num

/-! ### Upper-bound lemmas for the pipeline steps (for C9) -/

lemma applyContentType_le (c : ContentType) (s : Scores) :
    (applyContentType c s).vocabulary ≤ s.vocabulary + 2 ∧
    (applyContentType c s).mentalVerb ≤ s.mentalVerb + 2 ∧
    (applyContentType c s).expressive ≤ s.expressive + 1 ∧
    (applyContentType c s).verbalInteraction ≤ s.verbalInteraction ∧
    (applyContentType c s).sentenceComp ≤ s.sentenceComp + 1 ∧
    (applyContentType c s).socialLang ≤ s.socialLang + 2 := by
  cases c <;> refine ⟨?_, ?_, ?_, ?_, ?_, ?_⟩ <;> simp [applyContentType] <;> linarith

lemma applyParentalInvolvement_le (p : ParentalInvolvement) (s : Scores) :
    (applyParentalInvolvement p s).vocabulary ≤ s.vocabulary + 2 ∧
    (applyParentalInvolvement p s).mentalVerb ≤ s.mentalVerb + 2 ∧
    (applyParentalInvolvement p s).expressive ≤ s.expressive + 2 ∧
    (applyParentalInvolvement p s).verbalInteraction ≤ s.verbalInteraction + 2 ∧
    (applyParentalInvolvement p s).sentenceComp ≤ s.sentenceComp + 2 ∧
    (applyParentalInvolvement p s).socialLang ≤ s.socialLang + 2 := by
  cases p <;> refine ⟨?_, ?_, ?_, ?_, ?_, ?_⟩ <;>
    simp [applyParentalInvolvement, addAll]

lemma applyAge_le (age : ℚ) (s : Scores) :
    (applyAge age s).vocabulary ≤ s.vocabulary ∧
    (applyAge age s).mentalVerb ≤ s.mentalVerb ∧
    (applyAge age s).expressive ≤ s.expressive ∧
    (applyAge age s).verbalInteraction ≤ s.verbalInteraction ∧
    (applyAge age s).sentenceComp ≤ s.sentenceComp ∧
    (applyAge age s).socialLang ≤ s.socialLang := by
  unfold applyAge
  split_ifs <;> refine ⟨?_, ?_, ?_, ?_, ?_, ?_⟩ <;> simp [addAll]

lemma applyExcessiveUse_le (d f : ℚ) (s : Scores) :
    (applyExcessiveUse d f s).vocabulary ≤ s.vocabulary ∧
    (applyExcessiveUse d f s).mentalVerb ≤ s.mentalVerb ∧
    (applyExcessiveUse d f s).expressive ≤ s.expressive ∧
    (applyExcessiveUse d f s).verbalInteraction ≤ s.verbalInteraction ∧
    (applyExcessiveUse d f s).sentenceComp ≤ s.sentenceComp ∧
    (applyExcessiveUse d f s).socialLang ≤ s.socialLang := by
  unfold applyExcessiveUse
  split_ifs <;> refine ⟨?_, ?_, ?_, ?_, ?_, ?_⟩ <;> simp [addAll] <;> linarith

lemma applyContextual_le (su : YesNo) (bf mst : ℚ) (mmh : YesNo) (s : Scores) :
    (applyContextual su bf mst mmh s).vocabulary ≤ s.vocabulary ∧
    (applyContextual su bf mst mmh s).mentalVerb ≤ s.mentalVerb ∧
    (applyContextual su bf mst mmh s).expressive ≤ s.expressive ∧
    (applyContextual su bf mst mmh s).verbalInteraction ≤ s.verbalInteraction ∧
    (applyContextual su bf mst mmh s).sentenceComp ≤ s.sentenceComp ∧
    (applyContextual su bf mst mmh s).socialLang ≤ s.socialLang := by
  refine ⟨le_of_eq (applyContextual_vocabulary su bf mst mmh s), ?_, ?_, ?_,
    le_of_eq (applyContextual_sentenceComp su bf mst mmh s), ?_⟩
  · rw [applyContextual_mentalVerb]
    split_ifs <;> linarith
  · rw [applyContextual_expressive]
    split_ifs <;> linarith
  · simp only [applyContextual]
    split_ifs <;> simp <;> linarith
  · rw [applyContextual_socialLang]
    split_ifs <;> linarith

/-- C9: every returned sub-score is at most 9: the total positive
adjustment over all branches never exceeds +4 on top of the neutral 5, so
the upper clamp bound of 10 is never attained. -/
theorem scores_le_nine (data : FormValues) :
    (score data).scores.vocabulary ≤ 9 ∧
    (score data).scores.mentalVerb ≤ 9 ∧
    (score data).scores.expressive ≤ 9 ∧
    (score data).scores.verbalInteraction ≤ 9 ∧
    (score data).scores.sentenceComp ≤ 9 ∧
    (score data).scores.socialLang ≤ 9 := by
  obtain ⟨c1, c2, c3, c4, c5, c6⟩ := applyContentType_le data.contentType initialScores
  obtain ⟨p1, p2, p3, p4, p5, p6⟩ :=
    applyParentalInvolvement_le data.parentalInvolvement
      (applyContentType data.contentType initialScores)
  obtain ⟨a1, a2, a3, a4, a5, a6⟩ :=
    applyAge_le data.age
      (applyParentalInvolvement data.parentalInvolvement
        (applyContentType data.contentType initialScores))
  obtain ⟨u1, u2, u3, u4, u5, u6⟩ :=
    applyExcessiveUse_le data.duration data.frequency
      (applyAge data.age
        (applyParentalInvolvement data.parentalInvolvement
          (applyContentType data.contentType initialScores)))
  obtain ⟨x1, x2, x3, x4, x5, x6⟩ :=
    applyContextual_le data.simultaneousUse data.backgroundFreq
      data.maternalScreenTime data.maternalMentalHealth
      (applyExcessiveUse data.duration data.frequency
        (applyAge data.age
          (applyParentalInvolvement data.parentalInvolvement
            (applyContentType data.contentType initialScores))))
  have i1 : initialScores.vocabulary = 5 := rfl
  have i2 : initialScores.mentalVerb = 5 := rfl
  have i3 : initialScores.expressive = 5 := rfl
  have i4 : initialScores.verbalInteraction = 5 := rfl
  have i5 : initialScores.sentenceComp = 5 := rfl
  have i6 : initialScores.socialLang = 5 := rfl
  simp only [score, finalScores, clampScores, rawScores]
  exact ⟨clamp_le_of_le (by norm_num) (by linarith),
    clamp_le_of_le (by norm_num) (by linarith),
    clamp_le_of_le (by norm_num) (by linarith),
    clamp_le_of_le (by norm_num) (by linarith),
    clamp_le_of_le (by norm_num) (by linarith),
    clamp_le_of_le (by norm_num) (by linarith)⟩

/-- C10: changing only `simultaneousUse` leaves the vocabulary, mentalVerb,
expressive, sentenceComp and socialLang sub-scores unchanged; only
verbalInteraction (and through the mean, the harm level and suggestions)
can differ. -/
theorem simultaneousUse_frame (c : ContentType) (d f a : ℚ)
    (p : ParentalInvolvement) (su su' : YesNo) (bf mst : ℚ) (mmh : YesNo) :
    (score ⟨c, d, f, a, p, su, bf, mst, mmh⟩).scores.vocabulary =
      (score ⟨c, d, f, a, p, su', bf, mst, mmh⟩).scores.vocabulary ∧
    (score ⟨c, d, f, a, p, su, bf, mst, mmh⟩).scores.mentalVerb =
      (score ⟨c, d, f, a, p, su', bf, mst, mmh⟩).scores.mentalVerb ∧
    (score ⟨c, d, f, a, p, su, bf, mst, mmh⟩).scores.expressive =
      (score ⟨c, d, f, a, p, su', bf, mst, mmh⟩).scores.expressive ∧
    (score ⟨c, d, f, a, p, su, bf, mst, mmh⟩).scores.sentenceComp =
      (score ⟨c, d, f, a, p, su', bf, mst, mmh⟩).scores.sentenceComp ∧
    (score ⟨c, d, f, a, p, su, bf, mst, mmh⟩).scores.socialLang =
      (score ⟨c, d, f, a, p, su', bf, mst, mmh⟩).scores.socialLang := by
  simp only [score, finalScores, clampScores, rawScores, applyContextual_vocabulary,
    applyContextual_mentalVerb, applyContextual_expressive,
    applyContextual_sentenceComp, applyContextual_socialLang]
  exact ⟨trivial, trivial, trivial, trivial, trivial⟩

/-- C8: the form-emptiness check reports the form as empty, and submission
is disabled, exactly when none of the nine watched fields has a value;
equivalently submission is enabled whenever at least one field has a
value. -/
theorem isFormEmpty_iff_no_field_has_value (st : FormState) :
    (submitDisabled st = true ↔
      ¬(hasValue st.contentType ∨ hasValue st.duration ∨ hasValue st.frequency ∨
        hasValue st.age ∨ hasValue st.parentalInvolvement ∨
        hasValue st.simultaneousUse ∨ hasValue st.backgroundFreq ∨
        hasValue st.maternalScreenTime ∨ hasValue st.maternalMentalHealth)) ∧
    (submitDisabled st = false ↔
      (hasValue st.contentType ∨ hasValue st.duration ∨ hasValue st.frequency ∨
        hasValue st.age ∨ hasValue st.parentalInvolvement ∨
        hasValue st.simultaneousUse ∨ hasValue st.backgroundFreq ∨
        hasValue st.maternalScreenTime ∨ hasValue st.maternalMentalHealth)) := by
  cases h1 : jsFalsy st.contentType <;> cases h2 : jsFalsy st.duration <;>
    cases h3 : jsFalsy st.frequency <;> cases h4 : jsFalsy st.age <;>
    cases h5 : jsFalsy st.parentalInvolvement <;>
    cases h6 : jsFalsy st.simultaneousUse <;>
    cases h7 : jsFalsy st.backgroundFreq <;>
    cases h8 : jsFalsy st.maternalScreenTime <;>
    cases h9 : jsFalsy st.maternalMentalHealth <;>
    simp [submitDisabled, isFormEmpty, hasValue, h1, h2, h3, h4, h5, h6, h7, h8, h9]

end ScreenImpact
